import Mathlib

/-!
# Verification of the retailer SaaS backend's order/inventory and dashboard logic

Shallow embedding of the controllers of this repository:
* `createOrder`, `deleteOrder` from the order controller,
* `deleteProduct`, `toggleProductStatus` from the product controller,
* the dashboard aggregation (low-stock list, 30-day revenue, 7-day chart)
  from the retailer controller.

The managed store is modelled as in-memory lists of rows (`DB`); supabase
query-builder calls (`.eq`, `.lte`, `.order`, `.limit`, `.single`, `.update`,
`.delete`) become list `filter` / `mergeSort` / `take` / `single?` / `map` /
`filter` operations on those lists.  JS numbers used as money are modelled as
`Rat`, stock/quantity integers as `Int`, ids as `Nat`, statuses as the string
literals the code uses.
-/

namespace RetailerSaas

/-- Model of PostgREST's `.single()`: succeeds exactly when the query returned
exactly one row (zero rows or several rows produce an error, which the
controllers treat as a lookup failure). -/
def single? {α : Type} (l : List α) : Option α :=
  match l with
  | [x] => some x
  | _ => none

/-- A row of the `products` table. -/
structure Product where
  id : Nat
  retailer_id : Nat
  name : String
  description : String
  price : Rat
  stock : Int
  category : Option String
  image_url : Option String
  is_active : Bool
deriving DecidableEq, Repr

/-- A row of the `orders` table. -/
structure Order where
  id : Nat
  retailer_id : Nat
  customer_name : String
  customer_email : Option String
  customer_phone : Option String
  product_id : Nat
  quantity : Int
  unit_price : Rat
  total_amount : Rat
  status : String
  notes : Option String
deriving DecidableEq, Repr

/-- The tenant store: the two tables the verified controllers touch. -/
structure DB where
  products : List Product
  orders : List Order
deriving DecidableEq, Repr

/-- Body of `POST /orders`. -/
structure CreateOrderRequest where
  customer_name : String
  customer_email : Option String
  customer_phone : Option String
  product_id : Nat
  quantity : Int
  notes : Option String
deriving DecidableEq, Repr

/-- Outcome of `createOrder` (order controller). -/
inductive CreateOrderResult where
  /-- `404 Product not found or not available` -/
  | notFound
  /-- `400 Insufficient stock. Available: _, Requested: _` -/
  | insufficientStock (available requested : Int)
  /-- `201 Order created successfully`, carrying the persisted row -/
  | created (order : Order)
deriving DecidableEq, Repr

/-- HTTP status code sent by `createOrder` for each outcome. -/
def CreateOrderResult.httpStatus : CreateOrderResult → Nat
  | .notFound => 404
  | .insufficientStock _ _ => 400
  | .created _ => 201

/-- `createOrder` (order controller, `POST /orders`).

Embedding notes:
* Step 1 (`.eq('id',product_id).eq('retailer_id',retailerId).eq('is_active',true).single()`)
  is `single?` of the corresponding `filter`; `productError || !product` is the
  `none` case.
* Step 2 is the literal `product.stock < quantity` check.
* Steps 3–4 snapshot `unit_price`/`total_amount` and insert the new row with
  status `"pending"`; `newOrderId` stands for the id the store generates.
* Step 5 updates `stock` to `product.stock - quantity` on every row whose `id`
  matches (the update is filtered by `id` only).  `stockUpdateFails` models the
  supabase stock-update call returning an error: the code only logs it and
  still responds 201, so the insert survives and no stock changes. -/
def createOrder (db : DB) (retailerId : Nat) (req : CreateOrderRequest)
    (newOrderId : Nat) (stockUpdateFails : Bool) : CreateOrderResult × DB :=
  match single? (db.products.filter fun p =>
      p.id == req.product_id && p.retailer_id == retailerId && p.is_active) with
  | none => (.notFound, db)
  | some product =>
    if product.stock < req.quantity then
      (.insufficientStock product.stock req.quantity, db)
    else
      let unitPrice := product.price
      let totalAmount := unitPrice * (req.quantity : Rat)
      let order : Order :=
        { id := newOrderId
          retailer_id := retailerId
          customer_name := req.customer_name
          customer_email := req.customer_email
          customer_phone := req.customer_phone
          product_id := req.product_id
          quantity := req.quantity
          unit_price := unitPrice
          total_amount := totalAmount
          status := "pending"
          notes := req.notes }
      let db1 : DB := { db with orders := db.orders ++ [order] }
      if stockUpdateFails then
        (.created order, db1)
      else
        (.created order,
          { db1 with
              products := db1.products.map fun p =>
                if p.id == req.product_id then
                  { p with stock := product.stock - req.quantity }
                else p })

/-- Outcome of `deleteOrder` (order controller). -/
inductive DeleteOrderResult where
  /-- `404 Order not found` -/
  | notFound
  /-- `409 Only pending or cancelled orders can be deleted` -/
  | conflict
  /-- `200 Order deleted successfully` -/
  | deleted
deriving DecidableEq, Repr

/-- HTTP status code sent by `deleteOrder` for each outcome. -/
def DeleteOrderResult.httpStatus : DeleteOrderResult → Nat
  | .notFound => 404
  | .conflict => 409
  | .deleted => 200

/-- `deleteOrder` (order controller, `DELETE /orders/:id`).

Embedding notes:
* the fetch is `.eq('id',id).eq('retailer_id',retailerId).single()`;
* deletable only when `['pending','cancelled'].includes(order.status)`;
* when the order is `pending` the controller re-fetches the referenced
  product's stock (`.eq('id', order.product_id).single()`, not tenant
  scoped) and, only `if (!productError && product)`, writes
  `stock: product.stock + order.quantity`; a failed product lookup is
  silently skipped;
* the final `.delete().eq('id',id).eq('retailer_id',retailerId)` removes
  the matching order rows. -/
def deleteOrder (db : DB) (retailerId orderId : Nat) : DeleteOrderResult × DB :=
  match single? (db.orders.filter fun o =>
      o.id == orderId && o.retailer_id == retailerId) with
  | none => (.notFound, db)
  | some order =>
    if !(order.status == "pending" || order.status == "cancelled") then
      (.conflict, db)
    else
      let db1 : DB :=
        if order.status == "pending" then
          match single? (db.products.filter fun p => p.id == order.product_id) with
          | none => db
          | some product =>
            { db with
                products := db.products.map fun p =>
                  if p.id == order.product_id then
                    { p with stock := product.stock + order.quantity }
                  else p }
        else db
      (.deleted,
        { db1 with
            orders := db1.orders.filter fun o =>
              !(o.id == orderId && o.retailer_id == retailerId) })

/-- Outcome of `deleteProduct` (product controller). -/
inductive DeleteProductResult where
  /-- `409 Cannot delete product that has existing orders...` -/
  | conflict
  /-- `200 Product deleted successfully` -/
  | deleted
deriving DecidableEq, Repr

/-- HTTP status code sent by `deleteProduct` for each outcome. -/
def DeleteProductResult.httpStatus : DeleteProductResult → Nat
  | .conflict => 409
  | .deleted => 200

/-- `deleteProduct` (product controller, `DELETE /products/:id`).

The referencing-order probe is `.eq('product_id', id).limit(1)` (not tenant
scoped); `orders && orders.length > 0` blocks the deletion with 409.
Otherwise `.delete().eq('id',id).eq('retailer_id',retailerId)` removes the
matching product rows. -/
def deleteProduct (db : DB) (retailerId productId : Nat) :
    DeleteProductResult × DB :=
  let referencing := (db.orders.filter fun o => o.product_id == productId).take 1
  if referencing.length > 0 then
    (.conflict, db)
  else
    (.deleted,
      { db with
          products := db.products.filter fun p =>
            !(p.id == productId && p.retailer_id == retailerId) })

/-- Outcome of `toggleProductStatus` (product controller). -/
inductive ToggleResult where
  /-- `404 Product not found` -/
  | notFound
  /-- `200`, carrying the updated row returned by `.select().single()` -/
  | toggled (product : Product)
deriving DecidableEq, Repr

/-- `toggleProductStatus` (product controller, `PATCH /products/:id/toggle-status`).

The controller fetches the current row (`.eq('id',id).eq('retailer_id',
retailerId).single()`), computes `newStatus = !currentProduct.is_active`, and
updates `is_active` on the matching rows; the updated row is returned. -/
def toggleProductStatus (db : DB) (retailerId productId : Nat) :
    ToggleResult × DB :=
  match single? (db.products.filter fun p =>
      p.id == productId && p.retailer_id == retailerId) with
  | none => (.notFound, db)
  | some currentProduct =>
    let newStatus := !currentProduct.is_active
    (.toggled { currentProduct with is_active := newStatus },
      { db with
          products := db.products.map fun p =>
            if p.id == productId && p.retailer_id == retailerId then
              { p with is_active := newStatus }
            else p })

/-! ## Dashboard aggregation (retailer controller, `GET /retailer/dashboard`) -/

/-- The dashboard's low-stock fetch: products of the tenant with
`.eq('is_active', true).lte('stock', 5).order('stock', {ascending:true})
.limit(10)`.  The store's `order by stock ascending` is modelled by
`mergeSort` on the stock field (ties may come back in any order; every
property proved below is insensitive to tie order). -/
def lowStockProducts (db : DB) (retailerId : Nat) : List Product :=
  (((db.products.filter fun p =>
      p.retailer_id == retailerId && p.is_active && p.stock ≤ 5).mergeSort
    fun a b => a.stock ≤ b.stock).take 10)

/-- Modelled from the spec claim (C3): "the 10 lowest-stock active products
of that tenant, ordered ascending by stock and capped at 10" — the same
query but with no `stock ≤ 5` threshold.  Used only to compare the claim's
wording with the code's behaviour. -/
def tenLowestActiveSpec (db : DB) (retailerId : Nat) : List Product :=
  (((db.products.filter fun p =>
      p.retailer_id == retailerId && p.is_active).mergeSort
    fun a b => a.stock ≤ b.stock).take 10)

/-- A row of the dashboard's 30-day order fetch
(`select('status, total_amount, created_at')`).  `total_amount` is `Option`
to model a possibly-null column; the code guards with
`parseFloat(order.total_amount || 0)`. -/
structure RecentOrderRow where
  status : String
  total_amount : Option Rat
deriving DecidableEq, Repr

/-- The dashboard's `totalRevenue`:
`recentOrders.filter(o => o.status === 'delivered')
  .reduce((sum, order) => sum + parseFloat(order.total_amount || 0), 0)`.
(The controller then presents this number with `.toFixed(2)`; the numeric
value is what is verified here.) -/
def revenueLast30Days (recentOrders : List RecentOrderRow) : Rat :=
  (recentOrders.filter fun o => o.status == "delivered").foldl
    (fun sum order => sum + order.total_amount.getD 0) 0

/-- Milliseconds per day, as in the controller's
`i * 24 * 60 * 60 * 1000` arithmetic. -/
def msPerDay : Nat := 24 * 60 * 60 * 1000

/-- UTC calendar date of an epoch-millisecond timestamp, modelled as the day
number `ms / msPerDay`.  For non-negative timestamps this day number and the
`YYYY-MM-DD` string produced by `toISOString().split('T')[0]` (and by
splitting the stored `created_at` string at `'T'`) are in bijection, so
equality of date strings is equality of day numbers. -/
def dateKeyOf (ms : Nat) : Nat := ms / msPerDay

/-- A row of the dashboard's 7-day order fetch (`select('created_at')`),
with the timestamp as epoch milliseconds. -/
structure WeeklyOrderRow where
  created_at : Nat
deriving DecidableEq, Repr

/-- One entry of the dashboard's `weeklyOrderChart`. -/
structure ChartPoint where
  date : Nat
  orders : Nat
deriving DecidableEq, Repr

/-- The seeded keys of `dailyOrders`: the loop
`for (let i = 6; i >= 0; i--) dailyOrders[dateOf(now - i*msPerDay)] = 0`
inserts the dates of `now - 6 days … now`, oldest first. -/
def seedDays (now : Nat) : List Nat :=
  (List.range 7).map fun j => dateKeyOf (now - (6 - j) * msPerDay)

/-- One step of the counting pass: `if (dailyOrders.hasOwnProperty(dateString))
dailyOrders[dateString]++` on the association-list model of the object. -/
def bumpDay (acc : List ChartPoint) (key : Nat) : List ChartPoint :=
  if acc.any fun kv => kv.date == key then
    acc.map fun kv =>
      if kv.date == key then { kv with orders := kv.orders + 1 } else kv
  else acc

/-- The dashboard's `chartData`: seed each of the 7 days at zero, bump the
matching day once per weekly order, and read the entries off in insertion
order (JS objects preserve the insertion order of these keys; they are
pairwise distinct whenever `6 * msPerDay ≤ now`). -/
def weeklyOrderChart (now : Nat) (weeklyOrders : List WeeklyOrderRow) :
    List ChartPoint :=
  weeklyOrders.foldl (fun acc o => bumpDay acc (dateKeyOf o.created_at))
    ((seedDays now).map fun d => { date := d, orders := 0 })

/-! ## Generic helper lemmas -/

theorem single?_eq_some {α : Type} {l : List α} {a : α} :
    single? l = some a ↔ l = [a] := by
  cases l with
  | nil => simp [single?]
  | cons x xs =>
    cases xs with
    | nil => simp [single?]
    | cons y ys => simp [single?]

/-! ## Sample rows used to instantiate the theorems' hypotheses -/

/-- A concrete product row: 20 in stock, price 100. -/
def sampleProduct : Product :=
  { id := 1, retailer_id := 7, name := "Widget", description := "A widget",
    price := 100, stock := 20, category := some "tools", image_url := none,
    is_active := true }

/-- A concrete order request against `sampleProduct` for `q` units. -/
def sampleRequest (q : Int) : CreateOrderRequest :=
  { customer_name := "Ada", customer_email := none, customer_phone := none,
    product_id := 1, quantity := q, notes := none }

/-- A store holding just `sampleProduct` and no orders. -/
def sampleDB : DB := { products := [sampleProduct], orders := [] }

/-! ## C1 — order creation with insufficient stock -/

/-- C1: for every order-creation request whose requested quantity exceeds the
product's current stock, `createOrder` fails with `insufficientStock`
(HTTP 400, reporting available vs. requested) and returns the store
unchanged — no order row is created and no stock is mutated. -/
theorem createOrder_insufficientStock_no_mutation (db : DB) (retailerId : Nat)
    (req : CreateOrderRequest) (newOrderId : Nat) (stockUpdateFails : Bool)
    (product : Product)
    (hfind : single? (db.products.filter fun p =>
        p.id == req.product_id && p.retailer_id == retailerId && p.is_active)
      = some product)
    (hstock : product.stock < req.quantity) :
    createOrder db retailerId req newOrderId stockUpdateFails
      = (.insufficientStock product.stock req.quantity, db)
    ∧ (CreateOrderResult.insufficientStock product.stock req.quantity).httpStatus
        = 400 := by
  refine ⟨?_, rfl⟩
  unfold createOrder
  rw [hfind]
  simp [hstock]

/-- Witness for C1: requesting 100 units of a product with 20 in stock is
rejected with `insufficientStock 20 100` and the store is untouched. -/
theorem createOrder_insufficientStock_no_mutation_witness :
    createOrder sampleDB 7 (sampleRequest 100) 11 false
      = (.insufficientStock 20 100, sampleDB)
    ∧ (CreateOrderResult.insufficientStock 20 100).httpStatus = 400 :=
  createOrder_insufficientStock_no_mutation sampleDB 7 (sampleRequest 100) 11
    false sampleProduct (by decide) (by decide)

/-! ## C2 — successful order creation -/

/-- C2: every successful order creation persists an order with status
`"pending"`, unit price equal to the product's current price, total amount
equal to unit price times the requested quantity, and decrements the
product's stock by exactly the requested quantity. -/
theorem createOrder_success_snapshot_and_decrement (db : DB) (retailerId : Nat)
    (req : CreateOrderRequest) (newOrderId : Nat) (product : Product)
    (hfind : single? (db.products.filter fun p =>
        p.id == req.product_id && p.retailer_id == retailerId && p.is_active)
      = some product)
    (hstock : ¬ product.stock < req.quantity) :
    ∃ order : Order,
      createOrder db retailerId req newOrderId false
        = (.created order,
            { products := db.products.map fun p =>
                if p.id == req.product_id then
                  { p with stock := product.stock - req.quantity }
                else p,
              orders := db.orders ++ [order] })
      ∧ order.status = "pending"
      ∧ order.unit_price = product.price
      ∧ order.total_amount = product.price * (req.quantity : Rat)
      ∧ order.quantity = req.quantity
      ∧ { product with stock := product.stock - req.quantity }
          ∈ (db.products.map fun p =>
              if p.id == req.product_id then
                { p with stock := product.stock - req.quantity }
              else p)
      ∧ (CreateOrderResult.created order).httpStatus = 201 := by
  have hfilter := single?_eq_some.mp hfind
  have hmemProd : product ∈ db.products ∧
      (product.id == req.product_id && product.retailer_id == retailerId
        && product.is_active) = true := by
    have : product ∈ db.products.filter fun p =>
        p.id == req.product_id && p.retailer_id == retailerId && p.is_active := by
      rw [hfilter]; exact List.mem_singleton_self _
    exact List.mem_filter.mp this
  have hid : (product.id == req.product_id) = true := by
    have := hmemProd.2
    simp only [Bool.and_eq_true] at this
    exact this.1.1
  refine ⟨{ id := newOrderId, retailer_id := retailerId,
            customer_name := req.customer_name,
            customer_email := req.customer_email,
            customer_phone := req.customer_phone,
            product_id := req.product_id, quantity := req.quantity,
            unit_price := product.price,
            total_amount := product.price * (req.quantity : Rat),
            status := "pending", notes := req.notes },
          ?_, rfl, rfl, rfl, rfl, ?_, rfl⟩
  · simp only [createOrder, hfind, if_neg hstock, Bool.false_eq_true, if_false]
  · have himg := List.mem_map_of_mem
      (fun p => if p.id == req.product_id then
        { p with stock := product.stock - req.quantity } else p) hmemProd.1
    simpa [hid] using himg

/-- Witness for C2: ordering 2 units of the sample product (stock 20,
price 100) persists a pending order with unit price 100, total 200, and
leaves the product at stock 18. -/
theorem createOrder_success_snapshot_and_decrement_witness :
    ∃ order : Order,
      createOrder sampleDB 7 (sampleRequest 2) 11 false
        = (.created order,
            { products := sampleDB.products.map fun p =>
                if p.id == (sampleRequest 2).product_id then
                  { p with stock := sampleProduct.stock - (sampleRequest 2).quantity }
                else p,
              orders := sampleDB.orders ++ [order] })
      ∧ order.status = "pending"
      ∧ order.unit_price = sampleProduct.price
      ∧ order.total_amount = sampleProduct.price * ((sampleRequest 2).quantity : Rat)
      ∧ order.quantity = (sampleRequest 2).quantity
      ∧ { sampleProduct with stock := sampleProduct.stock - (sampleRequest 2).quantity }
          ∈ (sampleDB.products.map fun p =>
              if p.id == (sampleRequest 2).product_id then
                { p with stock := sampleProduct.stock - (sampleRequest 2).quantity }
              else p)
      ∧ (CreateOrderResult.created order).httpStatus = 201 :=
  createOrder_success_snapshot_and_decrement sampleDB 7 (sampleRequest 2) 11
    sampleProduct (by decide) (by decide)

/-! ## C5 — non-atomic stock decrement: failure is swallowed -/

/-- C5: if the stock-decrement write fails after the order row has been
persisted (`stockUpdateFails = true`), `createOrder` still answers success
(HTTP 201) with the order persisted and the product's stock undecremented;
the discrepancy is only logged (`console.error`, not modelled). -/
theorem createOrder_stockFailure_still_succeeds (db : DB) (retailerId : Nat)
    (req : CreateOrderRequest) (newOrderId : Nat) (product : Product)
    (hfind : single? (db.products.filter fun p =>
        p.id == req.product_id && p.retailer_id == retailerId && p.is_active)
      = some product)
    (hstock : ¬ product.stock < req.quantity) :
    ∃ order : Order,
      createOrder db retailerId req newOrderId true
        = (.created order,
            { products := db.products, orders := db.orders ++ [order] })
      ∧ (CreateOrderResult.created order).httpStatus = 201 := by
  refine ⟨{ id := newOrderId, retailer_id := retailerId,
            customer_name := req.customer_name,
            customer_email := req.customer_email,
            customer_phone := req.customer_phone,
            product_id := req.product_id, quantity := req.quantity,
            unit_price := product.price,
            total_amount := product.price * (req.quantity : Rat),
            status := "pending", notes := req.notes },
          ?_, rfl⟩
  simp only [createOrder, hfind, if_neg hstock, if_true]

/-- Witness for C5: with the stock write failing, ordering 2 units of the
sample product still returns 201 and leaves the stock at 20. -/
theorem createOrder_stockFailure_still_succeeds_witness :
    ∃ order : Order,
      createOrder sampleDB 7 (sampleRequest 2) 11 true
        = (.created order,
            { products := sampleDB.products,
              orders := sampleDB.orders ++ [order] })
      ∧ (CreateOrderResult.created order).httpStatus = 201 :=
  createOrder_stockFailure_still_succeeds sampleDB 7 (sampleRequest 2) 11
    sampleProduct (by decide) (by decide)

/-- A concrete order row over `sampleProduct` with the given status. -/
def sampleOrder (st : String) : Order :=
  { id := 5, retailer_id := 7, customer_name := "Ada", customer_email := none,
    customer_phone := none, product_id := 1, quantity := 2, unit_price := 100,
    total_amount := 200, status := st, notes := none }

/-- A store holding `sampleProduct` and one `sampleOrder st`. -/
def sampleOrderDB (st : String) : DB :=
  { products := [sampleProduct], orders := [sampleOrder st] }

/-! ## C4 — order deletion: statuses, stock restoration -/

/-- C4: order deletion behaves by status: no matching order gives NotFound
(404); a status other than `"pending"`/`"cancelled"` gives Conflict (409)
with no mutation; a `"pending"` order (whose referenced product is found)
has that product's stock incremented by exactly the order's quantity and the
order row deleted; a `"cancelled"` order is deleted with no stock change. -/
theorem deleteOrder_status_branches (db : DB) (retailerId orderId : Nat) :
    (db.orders.filter (fun o => o.id == orderId && o.retailer_id == retailerId)
        = []
      → deleteOrder db retailerId orderId = (.notFound, db)
        ∧ DeleteOrderResult.notFound.httpStatus = 404)
    ∧ (∀ order : Order,
        single? (db.orders.filter fun o =>
            o.id == orderId && o.retailer_id == retailerId) = some order
        → order.status ≠ "pending" → order.status ≠ "cancelled"
        → deleteOrder db retailerId orderId = (.conflict, db)
          ∧ DeleteOrderResult.conflict.httpStatus = 409)
    ∧ (∀ (order : Order) (product : Product),
        single? (db.orders.filter fun o =>
            o.id == orderId && o.retailer_id == retailerId) = some order
        → order.status = "pending"
        → single? (db.products.filter fun p => p.id == order.product_id)
            = some product
        → deleteOrder db retailerId orderId
            = (.deleted,
                { products := db.products.map fun p =>
                    if p.id == order.product_id then
                      { p with stock := product.stock + order.quantity }
                    else p,
                  orders := db.orders.filter fun o =>
                    !(o.id == orderId && o.retailer_id == retailerId) })
          ∧ { product with stock := product.stock + order.quantity }
              ∈ (db.products.map fun p =>
                  if p.id == order.product_id then
                    { p with stock := product.stock + order.quantity }
                  else p))
    ∧ (∀ order : Order,
        single? (db.orders.filter fun o =>
            o.id == orderId && o.retailer_id == retailerId) = some order
        → order.status = "cancelled"
        → deleteOrder db retailerId orderId
            = (.deleted,
                { products := db.products,
                  orders := db.orders.filter fun o =>
                    !(o.id == orderId && o.retailer_id == retailerId) })) := by
  refine ⟨?_, ?_, ?_, ?_⟩
  · intro h
    refine ⟨?_, rfl⟩
    simp only [deleteOrder, h, single?]
  · intro order hfind hp hc
    refine ⟨?_, rfl⟩
    have h1 : (order.status == "pending") = false := by simp [hp]
    have h2 : (order.status == "cancelled") = false := by simp [hc]
    simp only [deleteOrder, hfind, h1, h2, Bool.or_false, Bool.not_false,
      if_true]
  · intro order product hfind hstatus hprod
    have hpm : product ∈ db.products ∧
        (product.id == order.product_id) = true := by
      have : product ∈ db.products.filter fun p => p.id == order.product_id := by
        rw [single?_eq_some.mp hprod]; exact List.mem_singleton_self _
      exact List.mem_filter.mp this
    constructor
    · simp only [deleteOrder, hfind, hprod, hstatus]
      simp
    · have himg := List.mem_map_of_mem
        (fun p => if p.id == order.product_id then
          { p with stock := product.stock + order.quantity } else p) hpm.1
      simpa [hpm.2] using himg
  · intro order hfind hstatus
    simp only [deleteOrder, hfind, hstatus]
    simp

/-- Witness for C4, exercising all four branches on concrete stores: an
empty store 404s; a `"shipped"` order 409s untouched; deleting the pending
sample order puts the sample product back to stock 22; deleting a cancelled
order leaves the product list untouched. -/
theorem deleteOrder_status_branches_witness :
    (deleteOrder { products := [sampleProduct], orders := [] } 7 5
        = (.notFound, { products := [sampleProduct], orders := [] })
      ∧ DeleteOrderResult.notFound.httpStatus = 404)
    ∧ (deleteOrder (sampleOrderDB "shipped") 7 5
        = (.conflict, sampleOrderDB "shipped")
      ∧ DeleteOrderResult.conflict.httpStatus = 409)
    ∧ (deleteOrder (sampleOrderDB "pending") 7 5
        = (.deleted,
            { products := (sampleOrderDB "pending").products.map fun p =>
                if p.id == (sampleOrder "pending").product_id then
                  { p with stock := sampleProduct.stock + (sampleOrder "pending").quantity }
                else p,
              orders := (sampleOrderDB "pending").orders.filter fun o =>
                !(o.id == 5 && o.retailer_id == 7) })
      ∧ { sampleProduct with
            stock := sampleProduct.stock + (sampleOrder "pending").quantity }
          ∈ ((sampleOrderDB "pending").products.map fun p =>
              if p.id == (sampleOrder "pending").product_id then
                { p with stock := sampleProduct.stock + (sampleOrder "pending").quantity }
              else p))
    ∧ (deleteOrder (sampleOrderDB "cancelled") 7 5
        = (.deleted,
            { products := (sampleOrderDB "cancelled").products,
              orders := (sampleOrderDB "cancelled").orders.filter fun o =>
                !(o.id == 5 && o.retailer_id == 7) })) :=
  ⟨(deleteOrder_status_branches { products := [sampleProduct], orders := [] }
      7 5).1 (by decide),
   (deleteOrder_status_branches (sampleOrderDB "shipped") 7 5).2.1
      (sampleOrder "shipped") (by decide) (by decide) (by decide),
   (deleteOrder_status_branches (sampleOrderDB "pending") 7 5).2.2.1
      (sampleOrder "pending") sampleProduct (by decide) (by decide) (by decide),
   (deleteOrder_status_branches (sampleOrderDB "cancelled") 7 5).2.2.2
      (sampleOrder "cancelled") (by decide) (by decide)⟩

/-! ## C10 — pending deletion with a failed product lookup -/

/-- C10 (implicit): when deleting a `"pending"` order whose referenced
product lookup fails (`single?` returns nothing — no row, or not exactly
one), the stock-restoration step is silently skipped: the order row is
still deleted, the operation reports success (HTTP 200), and no product's
stock changes. -/
theorem deleteOrder_pending_missing_product_skips_restore (db : DB)
    (retailerId orderId : Nat) (order : Order)
    (hfind : single? (db.orders.filter fun o =>
        o.id == orderId && o.retailer_id == retailerId) = some order)
    (hstatus : order.status = "pending")
    (hmiss : single? (db.products.filter fun p => p.id == order.product_id)
      = none) :
    deleteOrder db retailerId orderId
      = (.deleted,
          { products := db.products,
            orders := db.orders.filter fun o =>
              !(o.id == orderId && o.retailer_id == retailerId) })
    ∧ DeleteOrderResult.deleted.httpStatus = 200 := by
  refine ⟨?_, rfl⟩
  simp only [deleteOrder, hfind, hstatus, hmiss]
  simp

/-- Witness for C10: deleting a pending order whose product row is absent
deletes the order, answers 200, and restores stock to no product. -/
theorem deleteOrder_pending_missing_product_skips_restore_witness :
    deleteOrder { products := [], orders := [sampleOrder "pending"] } 7 5
      = (.deleted,
          { products := [],
            orders := [sampleOrder "pending"].filter fun o =>
              !(o.id == 5 && o.retailer_id == 7) })
    ∧ DeleteOrderResult.deleted.httpStatus = 200 :=
  deleteOrder_pending_missing_product_skips_restore
    { products := [], orders := [sampleOrder "pending"] } 7 5
    (sampleOrder "pending") (by decide) (by decide) (by decide)

/-! ## C8 — product deletion guarded by referencing orders -/

/-- C8: deleting a product that at least one order references fails with
Conflict (409) and leaves the store unchanged; deleting a product that no
order references succeeds (200) and removes the matching product rows. -/
theorem deleteProduct_reference_guard (db : DB) (retailerId productId : Nat) :
    ((∃ o ∈ db.orders, o.product_id = productId)
      → deleteProduct db retailerId productId = (.conflict, db)
        ∧ DeleteProductResult.conflict.httpStatus = 409)
    ∧ ((∀ o ∈ db.orders, o.product_id ≠ productId)
      → deleteProduct db retailerId productId
          = (.deleted,
              { db with
                  products := db.products.filter fun p =>
                    !(p.id == productId && p.retailer_id == retailerId) })
        ∧ DeleteProductResult.deleted.httpStatus = 200) := by
  constructor
  · rintro ⟨o, ho, he⟩
    have hne : db.orders.filter (fun o => o.product_id == productId) ≠ [] := by
      intro hnil
      have := List.filter_eq_nil_iff.mp hnil o ho
      simp [he] at this
    have hlen :
        0 < ((db.orders.filter fun o => o.product_id == productId).take 1).length := by
      rw [List.length_take]
      have := List.length_pos.mpr hne
      omega
    refine ⟨?_, rfl⟩
    simp only [deleteProduct]
    rw [if_pos hlen]
  · intro hnone
    have hnil : db.orders.filter (fun o => o.product_id == productId) = [] :=
      List.filter_eq_nil_iff.mpr fun o ho => by simp [hnone o ho]
    refine ⟨?_, rfl⟩
    simp only [deleteProduct, hnil]
    simp

/-- Witness for C8: with one order referencing product 1, deleting product 1
is refused (409) and the store is unchanged; in a store with no orders,
deleting product 1 removes it and answers 200. -/
theorem deleteProduct_reference_guard_witness :
    (deleteProduct (sampleOrderDB "pending") 7 1
        = (.conflict, sampleOrderDB "pending")
      ∧ DeleteProductResult.conflict.httpStatus = 409)
    ∧ (deleteProduct sampleDB 7 1
        = (.deleted,
            { sampleDB with
                products := sampleDB.products.filter fun p =>
                  !(p.id == 1 && p.retailer_id == 7) })
      ∧ DeleteProductResult.deleted.httpStatus = 200) :=
  ⟨(deleteProduct_reference_guard (sampleOrderDB "pending") 7 1).1
      ⟨sampleOrder "pending", by decide, by decide⟩,
   (deleteProduct_reference_guard sampleDB 7 1).2
      (by intro o ho; simp [sampleDB] at ho)⟩

/-! ## C9 — toggling the active flag is an involution -/

/-- The per-row update `toggleProductStatus` performs: set `is_active := b`
on the rows matching the id/tenant pair, leave every other row alone. -/
def togUpd (productId retailerId : Nat) (b : Bool) (p : Product) : Product :=
  if p.id == productId && p.retailer_id == retailerId then
    { p with is_active := b }
  else p

theorem togUpd_togUpd (productId retailerId : Nat) (b b' : Bool)
    (p : Product) :
    togUpd productId retailerId b' (togUpd productId retailerId b p)
      = togUpd productId retailerId b' p := by
  by_cases h : (p.id == productId && p.retailer_id == retailerId) = true
  · simp [togUpd, h]
  · simp [togUpd, h]

theorem map_togUpd_togUpd (productId retailerId : Nat) (b b' : Bool)
    (l : List Product) :
    (l.map (togUpd productId retailerId b)).map (togUpd productId retailerId b')
      = l.map (togUpd productId retailerId b') := by
  induction l with
  | nil => rfl
  | cons x xs ih => simp only [List.map_cons, togUpd_togUpd, ih]

theorem filter_map_togUpd (productId retailerId : Nat) (b : Bool)
    (l : List Product) :
    (l.map (togUpd productId retailerId b)).filter
        (fun q => q.id == productId && q.retailer_id == retailerId)
      = (l.filter (fun q => q.id == productId && q.retailer_id == retailerId)).map
          (togUpd productId retailerId b) := by
  induction l with
  | nil => rfl
  | cons x xs ih =>
    by_cases h : (x.id == productId && x.retailer_id == retailerId) = true
    · have hx : togUpd productId retailerId b x = { x with is_active := b } := by
        rw [togUpd, if_pos h]
      have hcond : (({ x with is_active := b } : Product).id == productId
          && ({ x with is_active := b } : Product).retailer_id == retailerId)
          = true := h
      simp only [List.map_cons, hx, List.filter_cons, hcond, h, if_true, ih,
        List.map_cons]
    · have hx : togUpd productId retailerId b x = x := by
        rw [togUpd, if_neg (by simp [h])]
      simp only [List.map_cons, hx, List.filter_cons, h, if_false, ih,
        Bool.false_eq_true]

theorem map_togUpd_of_filter_nil (productId retailerId : Nat) (b : Bool)
    (l : List Product)
    (h : l.filter (fun q => q.id == productId && q.retailer_id == retailerId)
      = []) :
    l.map (togUpd productId retailerId b) = l := by
  induction l with
  | nil => rfl
  | cons x xs ih =>
    have hx : (x.id == productId && x.retailer_id == retailerId) = false := by
      have := List.filter_eq_nil_iff.mp h x (List.mem_cons_self x xs)
      simpa using this
    have hxs : xs.filter
        (fun q => q.id == productId && q.retailer_id == retailerId) = [] := by
      simpa [List.filter_cons, hx] using h
    have hupd : togUpd productId retailerId b x = x := by
      rw [togUpd, if_neg (by simp [hx])]
    simp only [List.map_cons, hupd, ih hxs]

theorem map_togUpd_self (productId retailerId : Nat) (p : Product)
    (l : List Product)
    (h : l.filter (fun q => q.id == productId && q.retailer_id == retailerId)
      = [p]) :
    l.map (togUpd productId retailerId p.is_active) = l := by
  induction l with
  | nil => simp at h
  | cons x xs ih =>
    by_cases hx : (x.id == productId && x.retailer_id == retailerId) = true
    · have hcons : x :: xs.filter
          (fun q => q.id == productId && q.retailer_id == retailerId) = [p] := by
        simpa [List.filter_cons, hx] using h
      injection hcons with hxp hxs
      subst hxp
      have hupd : togUpd productId retailerId x.is_active x = x := by
        rw [togUpd, if_pos hx]
      simp only [List.map_cons, hupd,
        map_togUpd_of_filter_nil productId retailerId x.is_active xs hxs]
    · have hxs : xs.filter
          (fun q => q.id == productId && q.retailer_id == retailerId) = [p] := by
        simpa [List.filter_cons, hx] using h
      have hupd : togUpd productId retailerId p.is_active x = x := by
        rw [togUpd, if_neg (by simp [hx])]
      simp only [List.map_cons, hupd, ih hxs]

/-- C9: when the store holds exactly one product row for the id/tenant pair,
a toggle returns that row with `is_active` flipped and every other field
unchanged (the returned record differs from `p` in `is_active` alone), and
applying the toggle twice returns the store to its original state. -/
theorem toggleProductStatus_flip_involutive (db : DB)
    (retailerId productId : Nat) (p : Product)
    (hone : db.products.filter
        (fun q => q.id == productId && q.retailer_id == retailerId) = [p]) :
    (toggleProductStatus db retailerId productId).1
        = .toggled { p with is_active := !p.is_active }
    ∧ (toggleProductStatus db retailerId productId).2
        = { db with products :=
              db.products.map (togUpd productId retailerId (!p.is_active)) }
    ∧ (toggleProductStatus
        (toggleProductStatus db retailerId productId).2 retailerId productId).2
        = db := by
  have hfind : single? (db.products.filter
      (fun q => q.id == productId && q.retailer_id == retailerId)) = some p := by
    rw [hone]; rfl
  have h1 : toggleProductStatus db retailerId productId
      = (.toggled { p with is_active := !p.is_active },
          { db with products :=
              db.products.map (togUpd productId retailerId (!p.is_active)) }) := by
    simp only [toggleProductStatus, hfind]
    rfl
  refine ⟨by rw [h1], by rw [h1], ?_⟩
  rw [h1]
  have hp : (p.id == productId && p.retailer_id == retailerId) = true := by
    have : p ∈ db.products.filter
        (fun q => q.id == productId && q.retailer_id == retailerId) := by
      rw [hone]; exact List.mem_singleton_self _
    exact (List.mem_filter.mp this).2
  have hfilter2 : (db.products.map
        (togUpd productId retailerId (!p.is_active))).filter
      (fun q => q.id == productId && q.retailer_id == retailerId)
      = [{ p with is_active := !p.is_active }] := by
    rw [filter_map_togUpd, hone]
    simp only [List.map_cons, List.map_nil]
    rw [togUpd, if_pos hp]
  have hfind2 : single? ((db.products.map
        (togUpd productId retailerId (!p.is_active))).filter
      (fun q => q.id == productId && q.retailer_id == retailerId))
      = some { p with is_active := !p.is_active } := by
    rw [hfilter2]; rfl
  simp only [toggleProductStatus, hfind2]
  show DB.mk ((db.products.map
      (togUpd productId retailerId (!p.is_active))).map
        (togUpd productId retailerId (!(!p.is_active)))) db.orders = db
  rw [map_togUpd_togUpd, Bool.not_not,
    map_togUpd_self productId retailerId p db.products hone]

/-- Witness for C9: toggling the sample product deactivates exactly its
`is_active` field, and toggling twice restores the original store. -/
theorem toggleProductStatus_flip_involutive_witness :
    (toggleProductStatus sampleDB 7 1).1
        = .toggled { sampleProduct with is_active := !sampleProduct.is_active }
    ∧ (toggleProductStatus sampleDB 7 1).2
        = { sampleDB with products :=
              sampleDB.products.map (togUpd 1 7 (!sampleProduct.is_active)) }
    ∧ (toggleProductStatus (toggleProductStatus sampleDB 7 1).2 7 1).2
        = sampleDB :=
  toggleProductStatus_flip_involutive sampleDB 7 1 sampleProduct (by decide)

/-! ## C3 — the dashboard's low-stock list -/

/-- An active product with stock 6: within the "10 lowest-stock active
products" but outside the code's `stock ≤ 5` filter. -/
def stockSixProduct : Product :=
  { id := 1, retailer_id := 7, name := "Widget", description := "A widget",
    price := 100, stock := 6, category := none, image_url := none,
    is_active := true }

/-- A tenant whose only (active) product is `stockSixProduct`. -/
def stockSixDB : DB := { products := [stockSixProduct], orders := [] }

/-- Counterexample to C3 as stated: for the tenant of `stockSixDB` the
dashboard's low-stock list is empty, while the 10 lowest-stock active
products of that tenant are the one product with stock 6 — the fetch also
filters on `stock ≤ 5`, which the claim omits. -/
theorem lowStockProducts_ne_tenLowest :
    lowStockProducts stockSixDB 7 ≠ tenLowestActiveSpec stockSixDB 7 := by
  have h1 : lowStockProducts stockSixDB 7 = [] := by
    simp [lowStockProducts, stockSixDB, stockSixProduct]
  have h2 : tenLowestActiveSpec stockSixDB 7 = [stockSixProduct] := by
    simp [tenLowestActiveSpec, stockSixDB, stockSixProduct]
  rw [h1, h2]
  simp

/-- C3 amended: the dashboard's low-stock list equals the 10 lowest-stock
active products **with stock ≤ 5** of that tenant, ordered ascending by
stock and capped at 10: it has `min 10 k` entries where `k` counts the
tenant's active products with stock ≤ 5, is sorted ascending by stock,
contains only such products, and every such product left out has stock at
least that of every listed product. -/
theorem lowStockProducts_lowest_under_threshold (db : DB) (retailerId : Nat) :
    (lowStockProducts db retailerId).length
        = min 10 ((db.products.filter fun p =>
            p.retailer_id == retailerId && p.is_active && p.stock ≤ 5).length)
    ∧ (lowStockProducts db retailerId).Pairwise (fun a b => a.stock ≤ b.stock)
    ∧ (∀ p ∈ lowStockProducts db retailerId,
        p.retailer_id = retailerId ∧ p.is_active = true ∧ p.stock ≤ 5)
    ∧ ∀ q ∈ db.products.filter (fun p =>
          p.retailer_id == retailerId && p.is_active && p.stock ≤ 5),
        q ∉ lowStockProducts db retailerId →
        ∀ x ∈ lowStockProducts db retailerId, x.stock ≤ q.stock := by
  have htrans : ∀ a b c : Product,
      (a.stock ≤ b.stock : Bool) → (b.stock ≤ c.stock : Bool)
      → (a.stock ≤ c.stock : Bool) := by
    intro a b c h1 h2
    simp only [decide_eq_true_eq] at h1 h2 ⊢
    omega
  have htotal : ∀ a b : Product,
      ((a.stock ≤ b.stock : Bool) || (b.stock ≤ a.stock : Bool)) = true := by
    intro a b
    simp only [Bool.or_eq_true, decide_eq_true_eq]
    omega
  have hsorted := @List.sorted_mergeSort Product
    (fun a b : Product => a.stock ≤ b.stock) htrans htotal
    (db.products.filter fun p =>
      p.retailer_id == retailerId && p.is_active && p.stock ≤ 5)
  refine ⟨?_, ?_, ?_, ?_⟩
  · rw [lowStockProducts, List.length_take, List.length_mergeSort]
  · have := hsorted.sublist (List.take_sublist 10 _)
    exact this.imp fun h => by simpa using h
  · intro p hp
    have hmem : p ∈ db.products.filter fun p =>
        p.retailer_id == retailerId && p.is_active && p.stock ≤ 5 := by
      have := (List.take_sublist 10 _).subset hp
      exact List.mem_mergeSort.mp this
    have := (List.mem_filter.mp hmem).2
    simp only [Bool.and_eq_true, beq_iff_eq, decide_eq_true_eq] at this
    exact ⟨this.1.1, this.1.2, this.2⟩
  · intro q hq hqout x hx
    set s := (db.products.filter fun p =>
      p.retailer_id == retailerId && p.is_active && p.stock ≤ 5).mergeSort
        (fun a b => a.stock ≤ b.stock) with hs
    have hqs : q ∈ s := List.mem_mergeSort.mpr hq
    have hsplit : s.take 10 ++ s.drop 10 = s := List.take_append_drop 10 s
    have hqdrop : q ∈ s.drop 10 := by
      rcases List.mem_append.mp (hsplit ▸ hqs) with h | h
      · exact absurd h hqout
      · exact h
    have hpair : (s.take 10 ++ s.drop 10).Pairwise
        (fun a b : Product => (a.stock ≤ b.stock : Bool)) := by
      rw [hsplit]; exact hsorted
    have := (List.pairwise_append.mp hpair).2.2 x hx q hqdrop
    simpa using this

/-! ## C6 — dashboard revenue counts only delivered orders -/

/-- C6: the dashboard's 30-day revenue is the sum of `total_amount` over
exactly the fetched orders whose status is `"delivered"` (this is the
number the controller then renders with `.toFixed(2)`); prepending an order
of any other status, whatever its amount, leaves the revenue unchanged. -/
theorem revenueLast30Days_delivered_only (l : List RecentOrderRow) :
    revenueLast30Days l
        = ((l.filter fun o => o.status == "delivered").map
            fun o => o.total_amount.getD 0).sum
    ∧ ∀ (o : RecentOrderRow) (l' : List RecentOrderRow),
        o.status ≠ "delivered"
        → revenueLast30Days (o :: l') = revenueLast30Days l' := by
  constructor
  · rw [revenueLast30Days, List.sum_eq_foldl, List.foldl_map]
  · intro o l' ho
    have hb : (o.status == "delivered") = false := by simp [ho]
    simp only [revenueLast30Days, List.filter_cons, hb, Bool.false_eq_true,
      if_false]

/-- Witness for C6: a cancelled 1000-unit order contributes nothing; the
revenue of a delivered 200 plus cancelled 1000 store is 200. -/
theorem revenueLast30Days_delivered_only_witness :
    revenueLast30Days
        [{ status := "cancelled", total_amount := some 1000 },
         { status := "delivered", total_amount := some 200 }]
      = revenueLast30Days [{ status := "delivered", total_amount := some 200 }]
    ∧ revenueLast30Days [{ status := "delivered", total_amount := some 200 }]
        = (([{ status := "delivered", total_amount := some 200 }].filter
            fun o : RecentOrderRow => o.status == "delivered").map
              fun o => o.total_amount.getD 0).sum :=
  ⟨(revenueLast30Days_delivered_only []).2
      { status := "cancelled", total_amount := some 1000 }
      [{ status := "delivered", total_amount := some 200 }] (by decide),
   (revenueLast30Days_delivered_only
      [{ status := "delivered", total_amount := some 200 }]).1⟩

/-! ## C7 — the dashboard's 7-day time series -/

theorem foldl_bumpDay (ks : List Nat) (f : Nat → Nat)
    (ws : List WeeklyOrderRow) :
    ws.foldl (fun acc o => bumpDay acc (dateKeyOf o.created_at))
        (ks.map fun d => ChartPoint.mk d (f d))
      = ks.map fun d =>
          ChartPoint.mk d
            (f d + (ws.filter fun o => dateKeyOf o.created_at == d).length) := by
  induction ws generalizing f with
  | nil => simp
  | cons o ws ih =>
    rw [List.foldl_cons]
    by_cases hmem : dateKeyOf o.created_at ∈ ks
    · have hany : ((ks.map fun d => ChartPoint.mk d (f d)).any
          fun kv => kv.date == dateKeyOf o.created_at) = true := by
        rw [List.any_eq_true]
        exact ⟨ChartPoint.mk (dateKeyOf o.created_at)
          (f (dateKeyOf o.created_at)),
          List.mem_map_of_mem _ hmem, by simp⟩
      have hstep : bumpDay (ks.map fun d => ChartPoint.mk d (f d))
            (dateKeyOf o.created_at)
          = ks.map fun d =>
              ChartPoint.mk d
                (if d == dateKeyOf o.created_at then f d + 1 else f d) := by
        rw [bumpDay, if_pos hany, List.map_map]
        apply List.map_congr_left
        intro d _
        by_cases hdt : (d == dateKeyOf o.created_at) = true
        · simp [Function.comp, hdt]
        · simp [Function.comp, hdt]
      rw [hstep,
        ih fun d => if d == dateKeyOf o.created_at then f d + 1 else f d]
      apply List.map_congr_left
      intro d _
      simp only [ChartPoint.mk.injEq, true_and]
      by_cases hdt : (d == dateKeyOf o.created_at) = true
      · have hd : d = dateKeyOf o.created_at := by simpa using hdt
        subst hd
        rw [if_pos hdt, List.filter_cons, if_pos (by simp)]
        simp only [List.length_cons]
        omega
      · have hdt' : ¬ ((dateKeyOf o.created_at == d) = true) := by
          simp only [beq_iff_eq] at hdt ⊢
          exact fun hc => hdt hc.symm
        rw [if_neg hdt, List.filter_cons, if_neg hdt']
    · have hany : ((ks.map fun d => ChartPoint.mk d (f d)).any
          fun kv => kv.date == dateKeyOf o.created_at) = false := by
        rw [List.any_eq_false]
        intro kv hkv
        obtain ⟨d, hd, rfl⟩ := List.mem_map.mp hkv
        simp only [beq_iff_eq]
        intro hcontra
        exact hmem (hcontra ▸ hd)
      rw [bumpDay, if_neg (by simp [hany]), ih f]
      apply List.map_congr_left
      intro d hd
      have hdt : ¬ ((dateKeyOf o.created_at == d) = true) := by
        simp only [beq_iff_eq]
        intro hcontra
        exact hmem (hcontra ▸ hd)
      rw [List.filter_cons, if_neg hdt]

theorem seedDays_eq (now : Nat) (h : 6 * msPerDay ≤ now) :
    seedDays now = (List.range 7).map fun j => dateKeyOf now - 6 + j := by
  rw [seedDays]
  apply List.map_congr_left
  intro j hj
  have hj7 : j < 7 := List.mem_range.mp hj
  have hms : 0 < msPerDay := by norm_num [msPerDay]
  have hdiv : 6 ≤ now / msPerDay := by
    rw [Nat.le_div_iff_mul_le hms]
    omega
  rw [dateKeyOf, dateKeyOf, Nat.mul_comm (6 - j) msPerDay,
    Nat.sub_mul_div now msPerDay (6 - j) (by nlinarith [Nat.sub_le 6 j])]
  omega

/-- C7: for every timestamp `now` at least 6 days past the epoch and every
fetched list of weekly orders, the dashboard's 7-day chart has exactly 7
entries, one per calendar day ending today and ordered oldest to newest,
and each entry's count is exactly the number of orders whose creation
timestamp falls on that entry's calendar day (all entries having been
seeded at zero). -/
theorem weeklyOrderChart_seven_days (now : Nat) (ws : List WeeklyOrderRow)
    (h : 6 * msPerDay ≤ now) :
    (weeklyOrderChart now ws).length = 7
    ∧ (weeklyOrderChart now ws).map (fun pt => pt.date)
        = (List.range 7).map (fun j => dateKeyOf now - 6 + j)
    ∧ ∀ pt ∈ weeklyOrderChart now ws,
        pt.orders
          = (ws.filter fun o => dateKeyOf o.created_at == pt.date).length := by
  have hchart : weeklyOrderChart now ws
      = (seedDays now).map fun d =>
          ChartPoint.mk d
            ((ws.filter fun o => dateKeyOf o.created_at == d).length) := by
    have := foldl_bumpDay (seedDays now) (fun _ => 0) ws
    rw [weeklyOrderChart]
    simpa using this
  refine ⟨?_, ?_, ?_⟩
  · rw [hchart]
    simp [seedDays]
  · rw [hchart, seedDays_eq now h, List.map_map]
    rfl
  · intro pt hpt
    rw [hchart] at hpt
    obtain ⟨d, _, rfl⟩ := List.mem_map.mp hpt
    rfl

/-- Witness for C7 at `now` = 7 days past the epoch, with one order today
and one at the epoch (outside the 7 seeded days): the chart spans days
1..7 with all zeros except one on day 7. -/
theorem weeklyOrderChart_seven_days_witness :
    (weeklyOrderChart 604800000 [⟨604799999⟩, ⟨0⟩]).length = 7
    ∧ (weeklyOrderChart 604800000 [⟨604799999⟩, ⟨0⟩]).map (fun pt => pt.date)
        = (List.range 7).map (fun j => dateKeyOf 604800000 - 6 + j)
    ∧ ∀ pt ∈ weeklyOrderChart 604800000 [⟨604799999⟩, ⟨0⟩],
        pt.orders
          = ([(⟨604799999⟩ : WeeklyOrderRow), ⟨0⟩].filter
              fun o => dateKeyOf o.created_at == pt.date).length :=
  weeklyOrderChart_seven_days 604800000 [⟨604799999⟩, ⟨0⟩] (by norm_num [msPerDay])

end RetailerSaas
